import Mathlib

/-!
Shallow embedding of the notification orchestration layer of the driver app
(`src/Notifications.tsx`): the `NotificationService` singleton with its
foreground/background push-message handlers, local-notification display,
token lifecycle, event emitter (`on` / `off` / `emit`) and startup replay
(`checkPendingNotifications`).

JavaScript values that can occur in a message `data` mapping are embedded as
`JSValue`; effectful SDK calls (notifee display, AsyncStorage reads/writes,
fetch, handler registration, `setTimeout`-scheduled emits) are recorded in an
explicit action trace, and possible rejections of those calls are supplied by
an environment record of failure flags. An `Except Unit` result tracks
whether an async function resolves or rejects back to its caller.
-/

namespace DriverApp

/-- A JavaScript value as it can appear in a notification `data` mapping:
a string, a number, a boolean, or a nested object (ordered key/value list). -/
inductive JSValue where
  | str : String → JSValue
  | num : Int → JSValue
  | boolean : Bool → JSValue
  | obj : List (String × JSValue) → JSValue
deriving Repr

/-- JavaScript `String(v)` coercion, as applied by `showLocalNotification`
to every `data` value (`stringData[key] = String(notification.data[key])`). -/
def jsString : JSValue → String
  | .str s => s
  | .num n => toString n
  | .boolean b => if b then "true" else "false"
  | .obj _ => "[object Object]"

/-- JavaScript truthiness, used by the `x || default` fallbacks in the
handlers: empty strings, `0` and `false` are falsy; objects are truthy. -/
def jsTruthy : JSValue → Bool
  | .str s => s ≠ ""
  | .num n => n ≠ 0
  | .boolean b => b
  | .obj _ => true

/-- JavaScript `x || d` on a possibly-undefined value (`none` = undefined). -/
def jsOr (v : Option JSValue) (d : JSValue) : JSValue :=
  match v with
  | some x => if jsTruthy x then x else d
  | none => d

/-- JavaScript strict equality `v === s` between a possibly-undefined value
and a string literal, as in `remoteMessage.data?.type === 'ride_request'`:
true exactly when the value is that string. -/
def jsEqStr (v : Option JSValue) (s : String) : Bool :=
  match v with
  | some (.str t) => t = s
  | _ => false

/-- Hex digit for JSON control-character escapes. -/
def hexDigit (n : Nat) : Char :=
  if n < 10 then Char.ofNat (48 + n) else Char.ofNat (87 + n)

/-- JSON escaping of one character, per `JSON.stringify` string rules. -/
def jsonEscapeChar (c : Char) : String :=
  if c = '\x22' then "\\\x22"
  else if c = '\\' then "\\\\"
  else if c = '\x08' then "\\b"
  else if c = '\x09' then "\\t"
  else if c = '\x0a' then "\\n"
  else if c = '\x0c' then "\\f"
  else if c = '\x0d' then "\\r"
  else if c.toNat < 32 then
    "\\u00" ++ String.mk [hexDigit (c.toNat / 16), hexDigit (c.toNat % 16)]
  else String.mk [c]

/-- JSON escaping of a string body. -/
def jsonEscape (s : String) : String :=
  String.join (s.toList.map jsonEscapeChar)

mutual

/-- `JSON.stringify` of a `JSValue`, as used by the background handler for
`JSON.stringify(remoteMessage.data)`. -/
def jsonOfValue : JSValue → String
  | .str s => "\x22" ++ jsonEscape s ++ "\x22"
  | .num n => toString n
  | .boolean b => if b then "true" else "false"
  | .obj kvs => "\x7b" ++ jsonOfFields kvs ++ "\x7d"

/-- `JSON.stringify` of the comma-separated fields of an object. -/
def jsonOfFields : List (String × JSValue) → String
  | [] => ""
  | [kv] => "\x22" ++ jsonEscape kv.1 ++ "\x22" ++ ":" ++ jsonOfValue kv.2
  | kv :: rest =>
      "\x22" ++ jsonEscape kv.1 ++ "\x22" ++ ":" ++ jsonOfValue kv.2 ++ ","
        ++ jsonOfFields rest

end

/-- An ordered JavaScript object used as a `data` mapping. -/
abbrev DataMap := List (String × JSValue)

/-- First value bound to `key` in a data object: JavaScript property lookup
`d[key]` (`none` = undefined). -/
def lookupKey (d : DataMap) (key : String) : Option JSValue :=
  match d.find? (fun kv => kv.1 = key) with
  | some kv => some kv.2
  | none => none

/-- Optional-chained lookup `d?.[key]` on a possibly-undefined data object. -/
def dataLookup (d : Option DataMap) (key : String) : Option JSValue :=
  match d with
  | some m => lookupKey m key
  | none => none

/-- The `notification` block of a provider message: optional title and body. -/
structure NotifBlock where
  title : Option String
  body : Option String
deriving Repr

/-- An inbound provider message (`remoteMessage`): an optional
`notification` block and an optional `data` mapping. -/
structure RemoteMessage where
  notification : Option NotifBlock
  data : Option DataMap
deriving Repr

/-- Argument of `showLocalNotification`: the `{title, body, data}` object the
handlers build. Title and body are whatever JavaScript value the fallback
expression produced; `data` is passed through uncoerced (`data?: any`). -/
structure DisplayRequest where
  title : JSValue
  body : JSValue
  data : Option DataMap
deriving Repr

/-- The payload `showLocalNotification` hands to
`notifee.displayNotification`: title and body unchanged, and the `stringData`
mapping built by coercing every `data` value with `String(...)`. -/
structure DisplayedPayload where
  title : JSValue
  body : JSValue
  data : List (String × JSValue)
deriving Repr

/-- One recorded effectful SDK call made by the orchestration layer. -/
inductive Action where
  | requestPermission : Action
  | createChannel : Action
  | getToken : Action
  | display : DisplayedPayload → Action
  | setItem : String → String → Action
  | getItem : String → Action
  | fetchPost : String → Action
  | emitCall : String → JSValue → Action
  | scheduleEmit : Nat → String → JSValue → Action
  | registerForeground : Action
  | registerBackground : Action
  | registerTokenRefresh : Action
  | getInitial : Action
  | subscribeForegroundEvents : Action
deriving Repr

/-- Failure flags for the SDK calls a message handler performs: whether
`notifee.displayNotification` rejects and whether `AsyncStorage.setItem`
rejects. -/
structure HandlerEnv where
  displayFails : Bool
  setItemFails : Bool
deriving Repr

/-- A JavaScript `try { ... } catch { log }` around an awaited unit step:
the error is logged and swallowed, so the surrounding function resolves. -/
def swallow (e : Except Unit Unit) : Except Unit Unit :=
  match e with
  | .ok _ => .ok ()
  | .error _ => .ok ()

/-- The `stringData` object built inside `showLocalNotification`:
`\x7b\x7d` when `notification.data` is undefined, otherwise every value of
the data mapping coerced with `String(...)`. -/
def coerceData (d : Option DataMap) : List (String × JSValue) :=
  match d with
  | some m => m.map (fun kv => (kv.1, JSValue.str (jsString kv.2)))
  | none => []

/-- `showLocalNotification`: builds `stringData`, calls
`notifee.displayNotification` with the coerced payload, and catches any
rejection of the display call, so it always resolves. Returns the trace of
calls made and the (always resolving) outcome. -/
def showLocalNotification (env : HandlerEnv) (n : DisplayRequest) :
    List Action × Except Unit Unit :=
  let payload : DisplayedPayload :=
    { title := n.title, body := n.body, data := coerceData n.data }
  let displayResult : Except Unit Unit :=
    if env.displayFails then .error () else .ok ()
  ([Action.display payload], swallow displayResult)

/-- Default title used when a message carries no usable title. -/
def defaultTitle : String := "🚖 New Ride Request"

/-- Default body used when a message carries no usable body. -/
def defaultBody : String := "Tap to view ride details"

/-- The `DisplayRequest` the foreground handler builds: title and body come
from the message `notification` block,
`remoteMessage.notification?.title || default`, and `data` is the raw
mapping. -/
def fgDisplayRequest (msg : RemoteMessage) : DisplayRequest :=
  { title := jsOr ((msg.notification.bind NotifBlock.title).map JSValue.str)
      (.str defaultTitle)
    body := jsOr ((msg.notification.bind NotifBlock.body).map JSValue.str)
      (.str defaultBody)
    data := msg.data }

/-- The `DisplayRequest` the background handler builds: title and body come
from the `data` mapping itself, `remoteMessage?.data?.title || default`, and
`data` is the raw mapping. -/
def bgDisplayRequest (msg : RemoteMessage) : DisplayRequest :=
  { title := jsOr (dataLookup msg.data "title") (.str defaultTitle)
    body := jsOr (dataLookup msg.data "body") (.str defaultBody)
    data := msg.data }

/-- The async callback registered by `setupForegroundHandler` via
`messaging().onMessage`: shows the local notification, then, when
`remoteMessage.data?.type === 'ride_request'`, emits a `rideRequest` event
with the raw data mapping. -/
def foregroundMessageHandler (env : HandlerEnv) (msg : RemoteMessage) :
    List Action × Except Unit Unit :=
  let (t1, _r1) := showLocalNotification env (fgDisplayRequest msg)
  match msg.data with
  | some d =>
      if jsEqStr (lookupKey d "type") "ride_request" then
        (t1 ++ [Action.emitCall "rideRequest" (.obj d)], .ok ())
      else (t1, .ok ())
  | none => (t1, .ok ())

/-- The async callback registered by `setupBackgroundHandler` via
`messaging().setBackgroundMessageHandler`: shows the local notification,
then, when `remoteMessage?.data?.type === 'ride_request'`, awaits
`AsyncStorage.setItem('pendingRideRequest', JSON.stringify(remoteMessage.data))`.
The `try/catch` in `setupBackgroundHandler` wraps only the registration, not
this callback, so a rejection of the awaited `setItem` propagates and the
handler rejects back to the platform. -/
def backgroundMessageHandler (env : HandlerEnv) (msg : RemoteMessage) :
    List Action × Except Unit Unit :=
  let (t1, _r1) := showLocalNotification env (bgDisplayRequest msg)
  match msg.data with
  | some d =>
      if jsEqStr (lookupKey d "type") "ride_request" then
        let stored := jsonOfValue (.obj d)
        let setResult : Except Unit Unit :=
          if env.setItemFails then .error () else .ok ()
        (t1 ++ [Action.setItem "pendingRideRequest" stored], setResult)
      else (t1, .ok ())
  | none => (t1, .ok ())

/-! ### Event emitter (`on` / `off` / `emit`) -/

/-- An application callback registered with `on`. Identity (as compared by
`indexOf` in `off`) is the `id`; `throws` says whether invoking it raises. -/
structure Listener where
  id : Nat
  throws : Bool
deriving Repr, DecidableEq

/-- The `listeners` field of the service: a `Map` from event name to an
ordered array of callbacks, embedded as an insertion-ordered
association list. -/
abbrev Registry := List (String × List Listener)

/-- `this.listeners.get(event)` (`none` when the map has no such key). -/
def listenersFor (r : Registry) (e : String) : Option (List Listener) :=
  match r.find? (fun p => p.1 = e) with
  | some p => some p.2
  | none => none

/-- `this.listeners.set(event, ls)`: replaces the value at an existing key
in place, appends a new key at the end (JavaScript Map insertion order). -/
def setListeners (r : Registry) (e : String) (ls : List Listener) : Registry :=
  if (r.find? (fun p => p.1 = e)).isSome then
    r.map (fun p => if p.1 = e then (e, ls) else p)
  else r ++ [(e, ls)]

/-- `on(event, callback)`: ensures the event has an entry, then pushes the
callback at the end of its array. -/
def onEvent (r : Registry) (e : String) (cb : Listener) : Registry :=
  let r1 := if (listenersFor r e).isSome then r else setListeners r e []
  setListeners r1 e ((listenersFor r1 e).getD [] ++ [cb])

/-- `indexOf` + `splice(index, 1)`: removes the first occurrence of the
callback, leaving the array unchanged when it is absent. -/
def removeFirst (cb : Listener) : List Listener → List Listener
  | [] => []
  | x :: xs => if x = cb then xs else x :: removeFirst cb xs

/-- `off(event, callback)`: when the event has an entry, removes the first
matching callback instance from its array. -/
def offEvent (r : Registry) (e : String) (cb : Listener) : Registry :=
  match listenersFor r e with
  | some ls => setListeners r e (removeFirst cb ls)
  | none => r

/-- Invoking one callback with the event data: raises exactly when the
listener throws. -/
def callListener (l : Listener) (_d : JSValue) : Except Unit Unit :=
  if l.throws then .error () else .ok ()

/-- `emit(event, data)`: invokes every currently-registered listener for the
event, in array order; each invocation sits in its own `try/catch`, so the
per-listener outcome is recorded but never propagates — `emit` itself always
returns normally, which is why its return type is a plain invocation record
rather than `Except`. -/
def emit (r : Registry) (e : String) (d : JSValue) :
    List (Listener × Except Unit Unit) :=
  match listenersFor r e with
  | some ls => ls.map (fun l => (l, callListener l d))
  | none => []

/-! ### Token lifecycle and initialization -/

/-- The mutable fields of the `NotificationService` singleton that the
embedded operations touch. -/
structure ServiceState where
  fcmToken : Option String
  notifInitialized : Bool
deriving Repr, DecidableEq

/-- The backend base URL. -/
def API_BASE : String := "https://backendddd-2xa6.onrender.com"

/-- Environment of the token-refresh callback: outcome of
`AsyncStorage.getItem("authToken")` and of the backend `fetch`. -/
structure TokenRefreshEnv where
  getAuthTokenFails : Bool
  authToken : Option String
  fetchFails : Bool
deriving Repr

/-- The async callback registered by `setupTokenRefreshHandler` via
`messaging().onTokenRefresh`: reads the stored auth token and, when one is
present (truthy), posts the new token to the backend — both inside a
`try/catch` whose error is only logged — then emits a `tokenRefresh` event
with the new token. It never writes `this.fcmToken` or the `fcmToken`
storage key. -/
def tokenRefreshCallback (env : TokenRefreshEnv) (st : ServiceState)
    (newToken : String) : ServiceState × List Action × Except Unit Unit :=
  let inner : List Action × Except Unit Unit :=
    if env.getAuthTokenFails then ([Action.getItem "authToken"], .error ())
    else
      match env.authToken with
      | some tok =>
          if tok ≠ "" then
            ([Action.getItem "authToken",
              Action.fetchPost (API_BASE ++ "/drivers/update-fcm-token")],
             if env.fetchFails then .error () else .ok ())
          else ([Action.getItem "authToken"], .ok ())
      | none => ([Action.getItem "authToken"], .ok ())
  let _caught := swallow inner.2
  (st, inner.1 ++ [Action.emitCall "tokenRefresh" (.str newToken)], .ok ())

/-- Environment of `getFCMToken`: outcome of `messaging().getToken()` and of
the `AsyncStorage.setItem("fcmToken", ...)` write. -/
structure TokenEnv where
  getTokenFails : Bool
  token : Option String
  setItemFails : Bool
deriving Repr

/-- `getFCMToken`: fetches the provider token; when one is obtained
(truthy), stores it in `this.fcmToken`, persists it under the `fcmToken`
key and returns it. Any rejection is caught and `null` returned — note the
in-memory field is already set when the persist step fails. -/
def getFCMToken (env : TokenEnv) (st : ServiceState) :
    ServiceState × List Action × Except Unit (Option String) :=
  if env.getTokenFails then (st, [Action.getToken], .ok none)
  else
    match env.token with
    | some t =>
        if t ≠ "" then
          let st2 := { st with fcmToken := some t }
          if env.setItemFails then
            (st2, [Action.getToken, Action.setItem "fcmToken" t], .ok none)
          else
            (st2, [Action.getToken, Action.setItem "fcmToken" t], .ok (some t))
        else (st, [Action.getToken], .ok none)
    | none => (st, [Action.getToken], .ok none)

/-- The provider permission statuses distinguished by
`messaging().requestPermission()`. -/
inductive AuthStatus where
  | notDetermined : AuthStatus
  | denied : AuthStatus
  | authorized : AuthStatus
  | provisional : AuthStatus
deriving Repr, DecidableEq

/-- The `enabled` test of `initializeNotifications`:
`authStatus === AUTHORIZED || authStatus === PROVISIONAL`. -/
def authEnabled : AuthStatus → Bool
  | .authorized => true
  | .provisional => true
  | _ => false

/-- Environment of initialization: outcome of the permission request, the
platform, and the failure flags of the downstream best-effort steps. -/
structure InitEnv where
  permissionFails : Bool
  authStatus : AuthStatus
  isAndroid : Bool
  channelFails : Bool
  tokenEnv : TokenEnv
deriving Repr

/-- `createNotificationChannel`: on Android, calls `notifee.createChannel`
inside a `try/catch` that logs and swallows any failure; elsewhere a no-op. -/
def createNotificationChannel (env : InitEnv) : List Action × Except Unit Unit :=
  if env.isAndroid then
    ([Action.createChannel],
     swallow (if env.channelFails then .error () else .ok ()))
  else ([], .ok ())

/-- `initializeNotifications` (named `initNotifications` here): requests
permission and returns `false` if it is not granted; otherwise runs the
best-effort channel creation, token fetch and handler registrations, marks
the service initialized and returns `true`. The whole body sits in a
`try/catch` returning `false`, so a rejecting permission request also yields
`.ok false` rather than an error. -/
def initNotifications (env : InitEnv) (st : ServiceState) :
    ServiceState × List Action × Except Unit Bool :=
  if env.permissionFails then (st, [Action.requestPermission], .ok false)
  else if authEnabled env.authStatus then
    let (a1, _r1) := createNotificationChannel env
    let (st2, a2, _r2) := getFCMToken env.tokenEnv st
    let st3 := { st2 with notifInitialized := true }
    (st3,
     [Action.requestPermission] ++ a1 ++ a2 ++
       [Action.registerForeground, Action.registerBackground,
        Action.registerTokenRefresh],
     .ok true)
  else (st, [Action.requestPermission], .ok false)

/-! ### Startup replay (`checkPendingNotifications`) -/

/-- The `notification` carried by notifee initial-notification and
foreground-press events: only its `data` matters here. -/
structure NotifeeNotif where
  data : Option DataMap
deriving Repr

/-- The value returned by `notifee.getInitialNotification()` when the app
was launched by a notification tap from the terminated state. -/
structure InitialNotification where
  notification : NotifeeNotif
deriving Repr

/-- Environment of `checkPendingNotifications`: outcome and result of the
initial-notification query. -/
structure PendingEnv where
  getInitialFails : Bool
  initialNotif : Option InitialNotification
deriving Repr

/-- `checkPendingNotifications`: queries the initial notification; when one
exists and its `data?.type === 'ride_request'`, schedules (via `setTimeout`)
a `rideRequest` emission of that data after 3000 ms; then subscribes to
notifee foreground press events. The body sits in a `try/catch`, so a
rejecting query is swallowed. -/
def checkPendingNotifications (env : PendingEnv) :
    List Action × Except Unit Unit :=
  if env.getInitialFails then ([Action.getInitial], .ok ())
  else
    let sched : List Action :=
      match env.initialNotif with
      | some i =>
          match i.notification.data with
          | some d =>
              if jsEqStr (lookupKey d "type") "ride_request" then
                [Action.scheduleEmit 3000 "rideRequest" (.obj d)]
              else []
          | none => []
      | none => []
    ([Action.getInitial] ++ sched ++ [Action.subscribeForegroundEvents],
     .ok ())

/-- The synchronous `emit` calls recorded in a trace, with their event name
and payload. -/
def emitsOf (t : List Action) : List (String × JSValue) :=
  t.filterMap (fun a =>
    match a with
    | .emitCall e d => some (e, d)
    | _ => none)

/-! ## Theorems -/

/-- `emit` invokes exactly the listener array registered for the event, in
order, recording each invocation outcome. -/
theorem emit_eq_map (r : Registry) (e : String) (d : JSValue) :
    emit r e d
      = ((listenersFor r e).getD []).map (fun l => (l, callListener l d)) := by
  unfold emit
  cases listenersFor r e <;> simp

/-- In-place replacement in the registry puts the new array at the key. -/
theorem find?_map_replace (e : String) (ls : List Listener) :
    ∀ r : Registry, (r.find? (fun p => p.1 = e)).isSome →
      (r.map (fun p => if p.1 = e then (e, ls) else p)).find?
          (fun p => p.1 = e) = some (e, ls)
  | [], h => by simp at h
  | p :: r, h => by
      by_cases hp : p.1 = e
      · simp [hp]
      · rw [List.map_cons, if_neg hp,
          List.find?_cons_of_neg _ (by simpa using hp)]
        rw [List.find?_cons_of_neg _ (by simpa using hp)] at h
        exact find?_map_replace e ls r h

/-- After `setListeners`, the event maps to exactly the stored array. -/
theorem listenersFor_setListeners (r : Registry) (e : String)
    (ls : List Listener) :
    listenersFor (setListeners r e ls) e = some ls := by
  unfold setListeners
  by_cases h : (r.find? (fun p => p.1 = e)).isSome
  · rw [if_pos h]
    unfold listenersFor
    rw [find?_map_replace e ls r h]
  · rw [if_neg h]
    unfold listenersFor
    rw [List.find?_append, Option.not_isSome_iff_eq_none.mp h]
    simp

/-- `onEvent` appends the callback at the end of the event's array. -/
theorem listenersFor_onEvent (r : Registry) (e : String) (cb : Listener) :
    listenersFor (onEvent r e cb) e
      = some ((listenersFor r e).getD [] ++ [cb]) := by
  unfold onEvent
  by_cases h : (listenersFor r e).isSome
  · rw [if_pos h, listenersFor_setListeners]
  · rw [if_neg h, listenersFor_setListeners, listenersFor_setListeners]
    rw [Option.not_isSome_iff_eq_none.mp h]
    simp

/-- `offEvent` removes the first matching instance from the event's array. -/
theorem listenersFor_offEvent (r : Registry) (e : String) (cb : Listener) :
    listenersFor (offEvent r e cb) e
      = (listenersFor r e).map (removeFirst cb) := by
  unfold offEvent
  cases h : listenersFor r e
  · simp [h]
  · simp [listenersFor_setListeners, h]

/-- `removeFirst` of a callback occurring at most once leaves no occurrence. -/
theorem count_le_one_not_mem_removeFirst (cb : Listener) :
    ∀ ls : List Listener, ls.count cb ≤ 1 → cb ∉ removeFirst cb ls
  | [], _ => by simp [removeFirst]
  | x :: xs, h => by
      by_cases hx : x = cb
      · subst hx
        rw [removeFirst, if_pos rfl]
        have hc : xs.count x = 0 := by
          rw [List.count_cons_self] at h
          omega
        exact List.count_eq_zero.mp hc
      · rw [removeFirst, if_neg hx]
        intro hmem
        rcases List.mem_cons.mp hmem with h1 | h1
        · exact hx h1.symm
        · have hcount : xs.count cb ≤ 1 := by
            rw [List.count_cons_of_ne (fun hh => hx hh.symm)] at h
            exact h
          exact count_le_one_not_mem_removeFirst cb xs hcount h1

/-- C1: the claim says the background message handler always resolves,
regardless of the outcome of the render step and of the local-storage write
of the pending ride request. The code catches render failures (first
conjunct) but awaits the `pendingRideRequest` storage write outside any
`try/catch` inside the handler, so a rejecting write makes the handler
reject back to the platform (second conjunct), contradicting the claim at
that input. -/
theorem background_handler_storage_failure_rejects :
    (backgroundMessageHandler ⟨true, false⟩
        ⟨none, some [("type", JSValue.str "ride_request"),
          ("rideId", JSValue.str "7")]⟩).2 = Except.ok ()
    ∧ (backgroundMessageHandler ⟨false, true⟩
        ⟨none, some [("type", JSValue.str "ride_request"),
          ("rideId", JSValue.str "7")]⟩).2 = Except.error () :=
  ⟨rfl, rfl⟩

/-- C5: a background message with data `type = ride_request, rideId = 7`
makes the background handler store the JSON string of the data object under
the `pendingRideRequest` key and display a local notification with the
default title (data-only payload, no notification title), resolving
normally. -/
theorem background_ride_request_scenario :
    backgroundMessageHandler ⟨false, false⟩
        ⟨none, some [("type", JSValue.str "ride_request"),
          ("rideId", JSValue.str "7")]⟩
      = ([Action.display ⟨JSValue.str defaultTitle, JSValue.str defaultBody,
            [("type", JSValue.str "ride_request"),
             ("rideId", JSValue.str "7")]⟩,
          Action.setItem "pendingRideRequest"
            "\x7b\"type\":\"ride_request\",\"rideId\":\"7\"\x7d"],
         Except.ok ()) := rfl

/-- C7: `emit` invokes every currently-registered listener for the event
synchronously in registration order, and a listener registered before
another that throws does not prevent the later one from being invoked: with
A registered before B and A throwing, the invocation record still ends with
A (whose exception is caught) followed by B. -/
theorem emit_invokes_in_order_past_throwing (r : Registry) (e : String)
    (d : JSValue) (A B : Listener) (hA : A.throws = true) :
    emit (onEvent (onEvent r e A) e B) e d
      = emit r e d ++ [(A, Except.error ()), (B, callListener B d)] := by
  rw [emit_eq_map, listenersFor_onEvent, listenersFor_onEvent, emit_eq_map]
  simp [callListener, hA]

/-- Witness for C7 at a concrete registry: a throwing listener 1 registered
before listener 2 on `rideRequest`; both are invoked, in order. -/
theorem emit_invokes_in_order_past_throwing_witness :
    emit (onEvent (onEvent ([] : Registry) "rideRequest" ⟨1, true⟩)
        "rideRequest" ⟨2, false⟩) "rideRequest" (.str "x")
      = [((⟨1, true⟩ : Listener), Except.error ()),
         ((⟨2, false⟩ : Listener), Except.ok ())] :=
  (emit_invokes_in_order_past_throwing [] "rideRequest" (.str "x")
    ⟨1, true⟩ ⟨2, false⟩ rfl).trans rfl

/-- C8 counterexample: the claim says that after `off(event, cb)` a
subsequent `emit` does not invoke `cb`, including when `cb` was registered
more than once. But `off` removes only the first matching instance, so a
callback registered twice still fires after one `off`. -/
theorem off_after_double_registration_still_fires :
    emit (offEvent (onEvent (onEvent ([] : Registry) "rideRequest"
          ⟨0, false⟩) "rideRequest" ⟨0, false⟩) "rideRequest" ⟨0, false⟩)
        "rideRequest" (.str "x")
      = [((⟨0, false⟩ : Listener), Except.ok ())] := rfl

/-- C8 (amended): after `off(event, cb)`, a subsequent `emit(event, x)`
does not invoke `cb`, provided `cb` was registered at most once for that
event (`off` removes only the first matching instance, so an n-times
registered callback still fires n-1 times). -/
theorem off_removes_single_registration (r : Registry) (e : String)
    (cb : Listener) (d : JSValue)
    (h : ((listenersFor r e).getD []).count cb ≤ 1) :
    ∀ q ∈ emit (offEvent r e cb) e d, q.1 ≠ cb := by
  intro q hq
  rw [emit_eq_map, listenersFor_offEvent] at hq
  cases hls : listenersFor r e with
  | none => rw [hls] at hq; simp at hq
  | some ls =>
      rw [hls] at hq
      simp only [Option.map_some', Option.getD_some] at hq
      obtain ⟨l, hl, hql⟩ := List.mem_map.mp hq
      intro hcb
      rw [← hql] at hcb
      simp only at hcb
      rw [hls] at h
      simp only [Option.getD_some] at h
      exact count_le_one_not_mem_removeFirst cb ls h (hcb ▸ hl)

/-- Witness for C8 (amended): a single registration of listener 0 on
`rideRequest`, then `off`; the listener is no longer invoked by `emit`. -/
theorem off_removes_single_registration_witness :
    ((⟨0, false⟩ : Listener), Except.ok ())
      ∉ emit (offEvent (onEvent ([] : Registry) "rideRequest" ⟨0, false⟩)
          "rideRequest" ⟨0, false⟩) "rideRequest" (.str "x") :=
  fun hmem =>
    off_removes_single_registration
      (onEvent ([] : Registry) "rideRequest" ⟨0, false⟩) "rideRequest"
      ⟨0, false⟩ (.str "x") (by decide) _ hmem rfl

/-- C2: the foreground handler emits a `rideRequest` event (synchronously,
in the same handler run) exactly when the message data `type` is
`ride_request`, and the emitted payload is the original uncoerced data
mapping of the message; the display call in the same run receives the
string-coerced mapping instead. -/
theorem foreground_emits_iff_ride_request (env : HandlerEnv)
    (msg : RemoteMessage) :
    emitsOf (foregroundMessageHandler env msg).1
      = (if jsEqStr (dataLookup msg.data "type") "ride_request"
         then [("rideRequest", JSValue.obj (msg.data.getD []))] else [])
    ∧ ∃ p, Action.display p ∈ (foregroundMessageHandler env msg).1
        ∧ p.data = coerceData msg.data := by
  obtain ⟨nb, dt⟩ := msg
  constructor
  · cases dt with
    | none =>
        simp [foregroundMessageHandler, showLocalNotification, emitsOf,
          dataLookup, jsEqStr]
    | some d =>
        by_cases hc : jsEqStr (lookupKey d "type") "ride_request"
        · simp [foregroundMessageHandler, showLocalNotification, emitsOf,
            dataLookup, hc]
        · simp [foregroundMessageHandler, showLocalNotification, emitsOf,
            dataLookup, hc]
  · refine ⟨⟨(fgDisplayRequest ⟨nb, dt⟩).title,
      (fgDisplayRequest ⟨nb, dt⟩).body, coerceData dt⟩, ?_, rfl⟩
    cases dt with
    | none => simp [foregroundMessageHandler, showLocalNotification,
        fgDisplayRequest]
    | some d =>
        by_cases hc : jsEqStr (lookupKey d "type") "ride_request" <;>
          simp [foregroundMessageHandler, showLocalNotification,
            fgDisplayRequest, hc]

/-- C3: the payload `showLocalNotification` hands to the notification
renderer keeps the request title and body, and its data mapping is the
`String(...)`-coercion of the request data, so every value in it is a
string. -/
theorem showLocal_payload_all_strings (env : HandlerEnv) (n : DisplayRequest)
    (p : DisplayedPayload)
    (h : (showLocalNotification env n).1 = [Action.display p]) :
    p.title = n.title ∧ p.body = n.body ∧ p.data = coerceData n.data ∧
      ∀ kv ∈ p.data, ∃ s, kv.2 = JSValue.str s := by
  have hp : p = ⟨n.title, n.body, coerceData n.data⟩ := by
    simp [showLocalNotification] at h
    exact h.symm
  subst hp
  refine ⟨rfl, rfl, rfl, ?_⟩
  intro kv hkv
  cases hd : n.data with
  | none => rw [hd] at hkv; simp [coerceData] at hkv
  | some m =>
      rw [hd] at hkv
      simp only [coerceData, List.mem_map] at hkv
      obtain ⟨a, _ha, hkva⟩ := hkv
      exact ⟨jsString a.2, by rw [← hkva]⟩

/-- Witness for C3 at a concrete request: a boolean `data` value
`test = true` is handed to the renderer as the string `"true"`, and the
payload contains only string values. -/
theorem showLocal_payload_all_strings_witness :
    (showLocalNotification ⟨true, false⟩
        ⟨.str "T", .str "B", some [("test", JSValue.boolean true)]⟩).1
      = [Action.display ⟨.str "T", .str "B",
          [("test", JSValue.str "true")]⟩]
    ∧ ∀ kv ∈ ([("test", JSValue.str "true")] : List (String × JSValue)),
        ∃ s, kv.2 = JSValue.str s :=
  ⟨rfl, (showLocal_payload_all_strings ⟨true, false⟩
    ⟨.str "T", .str "B", some [("test", JSValue.boolean true)]⟩ _ rfl).2.2.2⟩

/-- C4 counterexample: the claim says the background handler builds the
same DisplayRequest as the foreground handler for every message, but the
foreground handler reads title and body from the message notification
block while the background handler reads them from the data mapping: a
message carrying a notification title produces different requests. -/
theorem fg_bg_display_request_differ :
    fgDisplayRequest ⟨some ⟨some "Ride from Airport", some "Pickup at gate 3"⟩,
        some [("type", JSValue.str "ride_request")]⟩
      ≠ bgDisplayRequest ⟨some ⟨some "Ride from Airport",
          some "Pickup at gate 3"⟩,
        some [("type", JSValue.str "ride_request")]⟩ := by
  intro h
  have ht := congrArg DisplayRequest.title h
  simp [fgDisplayRequest, bgDisplayRequest, jsOr, jsTruthy, dataLookup,
    lookupKey, defaultTitle] at ht

/-- C4 (amended): both handlers render through the single
`showLocalNotification` entry point with the same raw data and the same
default title and body fallbacks, but the foreground handler sources title
and body from the notification block while the background handler sources
them from the data mapping; for a data-only message (no notification
block) whose data has no `title` or `body` entry, the two handlers build
the same DisplayRequest and issue the same render call. -/
theorem fg_bg_agree_on_data_only (msg : RemoteMessage)
    (h1 : msg.notification = none)
    (h2 : dataLookup msg.data "title" = none)
    (h3 : dataLookup msg.data "body" = none) :
    fgDisplayRequest msg = bgDisplayRequest msg
    ∧ ∀ env, (showLocalNotification env (fgDisplayRequest msg)).1
        = (showLocalNotification env (bgDisplayRequest msg)).1 := by
  have heq : fgDisplayRequest msg = bgDisplayRequest msg := by
    unfold fgDisplayRequest bgDisplayRequest
    rw [h1, h2, h3]
    rfl
  exact ⟨heq, fun env => by rw [heq]⟩

/-- Witness for C4 (amended) at a concrete data-only ride-request
message. -/
theorem fg_bg_agree_on_data_only_witness :
    fgDisplayRequest ⟨none, some [("type", JSValue.str "ride_request"),
        ("rideId", JSValue.str "7")]⟩
      = bgDisplayRequest ⟨none, some [("type", JSValue.str "ride_request"),
        ("rideId", JSValue.str "7")]⟩ :=
  (fg_bg_agree_on_data_only
    ⟨none, some [("type", JSValue.str "ride_request"),
      ("rideId", JSValue.str "7")]⟩ rfl rfl rfl).1

/-- C6 counterexample: the claim says a token-refresh invocation replaces
both the in-memory cached token and the persisted `fcmToken` key, but at a
concrete refresh with new token `NEWTOKEN` the cached token keeps its old
value and the trace contains no `fcmToken` storage write. -/
theorem token_refresh_not_persisted_cex :
    (tokenRefreshCallback ⟨false, some "authtok", false⟩
        ⟨some "OLDTOKEN", true⟩ "NEWTOKEN").1.fcmToken = some "OLDTOKEN"
    ∧ Action.setItem "fcmToken" "NEWTOKEN"
        ∉ (tokenRefreshCallback ⟨false, some "authtok", false⟩
            ⟨some "OLDTOKEN", true⟩ "NEWTOKEN").2.1 := by
  refine ⟨rfl, ?_⟩
  intro h
  simp [tokenRefreshCallback, API_BASE] at h

/-- C6 (amended): the token-refresh callback leaves the service state — in
particular the in-memory cached token — unchanged and performs no storage
write at all; it best-effort posts the new token to the backend and always
ends by emitting a `tokenRefresh` event with the new token, resolving
normally. Only `getFCMToken` (on fetch) replaces the in-memory cached token
and writes the persisted `fcmToken` key. -/
theorem token_refresh_emits_but_does_not_replace (env : TokenRefreshEnv)
    (st : ServiceState) (t : String) :
    (tokenRefreshCallback env st t).1 = st
    ∧ (∀ k v, Action.setItem k v ∉ (tokenRefreshCallback env st t).2.1)
    ∧ (tokenRefreshCallback env st t).2.1.getLast?
        = some (Action.emitCall "tokenRefresh" (JSValue.str t))
    ∧ (tokenRefreshCallback env st t).2.2 = Except.ok ()
    ∧ ∀ (tenv : TokenEnv) (st2 : ServiceState) (tok : String),
        tenv.getTokenFails = false → tenv.token = some tok → tok ≠ "" →
          (getFCMToken tenv st2).1.fcmToken = some tok
          ∧ Action.setItem "fcmToken" tok ∈ (getFCMToken tenv st2).2.1 := by
  obtain ⟨gf, atok, ff⟩ := env
  refine ⟨rfl, ?_, ?_, rfl, ?_⟩
  · intro k v hmem
    cases gf
    · rcases atok with _ | a
      · simp [tokenRefreshCallback] at hmem
      · by_cases ha : a = ""
        · simp [tokenRefreshCallback, ha] at hmem
        · simp [tokenRefreshCallback, ha] at hmem
    · simp [tokenRefreshCallback] at hmem
  · simp only [tokenRefreshCallback]
    exact List.getLast?_concat _
  · intro tenv st2 tok h1 h2 h3
    obtain ⟨gtf, tk, sif⟩ := tenv
    simp only at h1 h2
    subst h1
    subst h2
    cases sif <;> exact ⟨by simp [getFCMToken, h3], by simp [getFCMToken, h3]⟩

/-- Witness for C6 (amended) at concrete inputs: a refresh leaves the state
unchanged, and a successful `getFCMToken` caches the fetched token. -/
theorem token_refresh_emits_but_does_not_replace_witness :
    (tokenRefreshCallback ⟨false, none, false⟩ ⟨none, false⟩ "N").1
        = ⟨none, false⟩
    ∧ (getFCMToken ⟨false, some "TOK", false⟩ ⟨none, false⟩).1.fcmToken
        = some "TOK" :=
  ⟨(token_refresh_emits_but_does_not_replace ⟨false, none, false⟩
      ⟨none, false⟩ "N").1,
   ((token_refresh_emits_but_does_not_replace ⟨false, none, false⟩
      ⟨none, false⟩ "N").2.2.2.2 ⟨false, some "TOK", false⟩ ⟨none, false⟩
      "TOK" rfl rfl (by decide)).1⟩

/-- C9: when the permission request itself resolves, initialization returns
(without throwing) exactly the permission verdict: `false` when the status
is neither authorized nor provisional, `true` when it is granted — for
every combination of platform, channel-creation and token-retrieval
failure flags, since those downstream steps are best-effort. -/
theorem init_result_tracks_permission_only (env : InitEnv)
    (st : ServiceState) (h : env.permissionFails = false) :
    (initNotifications env st).2.2
      = Except.ok (authEnabled env.authStatus) := by
  cases ha : authEnabled env.authStatus <;>
    simp [initNotifications, h, ha]

/-- Witness for C9: permission granted while channel creation and token
retrieval both fail; initialization still returns `true`. -/
theorem init_result_tracks_permission_only_witness :
    (initNotifications ⟨false, AuthStatus.authorized, true, true,
        ⟨true, none, true⟩⟩ ⟨none, false⟩).2.2 = Except.ok true :=
  init_result_tracks_permission_only _ _ rfl

/-- C10: when the app was launched by a notification from the terminated
state, `checkPendingNotifications` schedules a `rideRequest` emission of
that notification data with a fixed 3000 ms delay exactly when the data
`type` is `ride_request`; for any other `type` no `rideRequest` emission is
scheduled from the initial notification. -/
theorem check_pending_schedules_ride (env : PendingEnv)
    (i : InitialNotification)
    (h1 : env.getInitialFails = false)
    (h2 : env.initialNotif = some i) :
    (jsEqStr (dataLookup i.notification.data "type") "ride_request" = true →
       ∃ d, i.notification.data = some d ∧
         (checkPendingNotifications env).1
           = [Action.getInitial,
              Action.scheduleEmit 3000 "rideRequest" (JSValue.obj d),
              Action.subscribeForegroundEvents])
    ∧ (jsEqStr (dataLookup i.notification.data "type") "ride_request"
          = false →
       (checkPendingNotifications env).1
         = [Action.getInitial, Action.subscribeForegroundEvents]) := by
  constructor
  · intro hc
    cases hd : i.notification.data with
    | none => rw [hd] at hc; simp [dataLookup, jsEqStr] at hc
    | some d =>
        rw [hd] at hc
        simp only [dataLookup] at hc
        exact ⟨d, rfl,
          by simp [checkPendingNotifications, h1, h2, hd, hc]⟩
  · intro hc
    cases hd : i.notification.data with
    | none => simp [checkPendingNotifications, h1, h2, hd]
    | some d =>
        rw [hd] at hc
        simp only [dataLookup] at hc
        simp [checkPendingNotifications, h1, h2, hd, hc]

/-- Witness for C10: the cold-start scenario with
`data = (type = ride_request, rideId = 42)`; a 3000 ms delayed
`rideRequest` emission of that data is scheduled. -/
theorem check_pending_schedules_ride_witness :
    ∃ d, (some [("type", JSValue.str "ride_request"),
          ("rideId", JSValue.str "42")] : Option DataMap) = some d ∧
      (checkPendingNotifications ⟨false,
          some ⟨⟨some [("type", JSValue.str "ride_request"),
            ("rideId", JSValue.str "42")]⟩⟩⟩).1
        = [Action.getInitial,
           Action.scheduleEmit 3000 "rideRequest" (JSValue.obj d),
           Action.subscribeForegroundEvents] :=
  (check_pending_schedules_ride ⟨false,
      some ⟨⟨some [("type", JSValue.str "ride_request"),
        ("rideId", JSValue.str "42")]⟩⟩⟩
    ⟨⟨some [("type", JSValue.str "ride_request"),
      ("rideId", JSValue.str "42")]⟩⟩ rfl rfl).1 rfl

end DriverApp
